import Mathlib

/-!
Verification of the Tech-Aid-Autocomplete widget.

The repository is a React/TypeScript autocomplete component
(`Autocomplete.tsx`) together with a fake suggestion source
(`api.ts`, `searchCities`).  This file gives a shallow embedding of the
component as an explicit event-driven state machine:

* React `useState` fields (`query`, `results`, `isOpen`, `loading`,
  `highlightedIndex`) and `useRef` cells (`controllerRef`,
  `debounceRef`, `cacheRef`) become fields of `WidgetState`;
* the debounce/fetch `useEffect` keyed on `[query, minQueryLength]`
  becomes `runEffect`, run after every event that changes `query`;
* the `setTimeout` callback becomes the `fire` event (`fireDebounce`);
* an in-flight `searchCities` promise is an entry of `inflight`
  (controller id, query); its resolution is the `resolve` event and a
  non-abort rejection of the suggestion source is the `fetchFail`
  event (the component's catch block is generic in the error);
* `AbortController.abort` fires its listener synchronously (rejecting
  the pending promise), and the aborted invocation's catch/finally
  block then runs as a microtask after the currently running handler:
  `abortRef` records the queued continuation in `microtask` and
  `drain` runs it at the point where the microtask queue is drained;
* `console.error` calls are counted in `errors`, `onSelect` callback
  invocations are appended to `selected`.
-/

namespace TechAid

/-! ### api.ts: the fixed city list and the filter computed by `searchCities` -/

/-- Prefix test on character lists (`pat` is a prefix of `s`). -/
def prefAt : List Char → List Char → Bool
  | [], _ => true
  | _ :: _, [] => false
  | p :: ps, c :: cs => p == c && prefAt ps cs

/-- Substring occurrence test: `pat` occurs contiguously in `s`. -/
def subAt (pat : List Char) : List Char → Bool
  | [] => prefAt pat []
  | s@(_ :: t) => prefAt pat s || subAt pat t

/-- Embedding of JavaScript `s.includes(pat)`. -/
def strIncludes (s pat : String) : Bool :=
  subAt pat.data s.data

/-- ASCII-only lowering (`Char.toLower` maps only `A`-`Z`).  This is
NOT the full JavaScript `toLowerCase`, whose Unicode case mapping is a
host builtin (for example JavaScript lowers `Á` to `á` while
`Char.toLower` leaves it unchanged).  It agrees with the JavaScript
function on every string without non-ASCII uppercase letters — in
particular on the city data and on every concrete query used in this
file — and serves only to instantiate the parametric
`searchCitiesResultWith` on those concrete traces. -/
def lowerStr (s : String) : String :=
  ⟨s.data.map Char.toLower⟩

/-- Embedding of JavaScript `String.prototype.trim`: strip leading and
trailing whitespace. -/
def jsTrim (s : String) : String :=
  ⟨(((s.data.dropWhile Char.isWhitespace).reverse).dropWhile
      Char.isWhitespace).reverse⟩

/-- The fixed data list of `searchCities` in `api.ts`. -/
def citiesData : List String :=
  ["Boston", "Bogotá", "Buenos Aires", "Bangalore", "Berlin",
   "Barcelona", "Beijing", "Brisbane"]

/-- The value `searchCities q` resolves with when it is not cancelled:
`data.filter ((c) => c.toLowerCase().includes(q.toLowerCase()))`,
parametric in the embedding `low` of the JavaScript `toLowerCase`
builtin (an external host function whose Unicode case table is not
part of this repository). -/
def searchCitiesResultWith (low : String → String) (q : String) :
    List String :=
  citiesData.filter (fun c => strIncludes (low c) (low q))

/-- `searchCitiesResultWith` instantiated with the ASCII lowering;
adequate for the ASCII queries of the concrete traces below. -/
def searchCitiesResult (q : String) : List String :=
  searchCitiesResultWith lowerStr q

/-! ### Autocomplete.tsx: widget state -/

/-- Recognized host configuration (`AutocompleteProps`); only
`minQueryLength` influences the controller logic. -/
structure Config where
  minQueryLength : Nat
deriving DecidableEq

/-- The complete mutable state of one mounted `Autocomplete` instance. -/
structure WidgetState where
  query : String
  results : List String
  isOpen : Bool
  loading : Bool
  highlightedIndex : Int
  cache : List (String × List String)
  controllerRef : Option Nat
  debounce : Option String
  inflight : List (Nat × String)
  nextId : Nat
  microtask : Bool
  errors : Nat
  selected : List String
deriving DecidableEq

/-- `cacheRef.current.has/get` on the query cache (`Map` semantics). -/
def cacheGet (cache : List (String × List String)) (k : String) :
    Option (List String) :=
  match cache.find? (fun p => p.1 == k) with
  | some p => some p.2
  | none => none

/-- `cacheRef.current.set` (replace an existing key, else append). -/
def cacheSet (cache : List (String × List String)) (k : String)
    (v : List String) : List (String × List String) :=
  if cache.any (fun p => p.1 == k) then
    cache.map (fun p => if p.1 == k then (k, v) else p)
  else cache ++ [(k, v)]

/-- How one `searchCities` invocation settles. -/
inductive FetchOutcome where
  | success (q : String) (res : List String)
  | aborted
  | failure
deriving DecidableEq

/-- The `try/catch/finally` continuation of the fetch (lines 96-108 of
the component): on success store in cache and set results; on
`AbortError` do nothing; on any other error `console.error`; then the
`finally` block clears `loading`, nulls `controllerRef` and resets the
highlight. -/
def settleFetch (out : FetchOutcome) (s : WidgetState) : WidgetState :=
  let s1 :=
    match out with
    | .success q res => { s with cache := cacheSet s.cache q res, results := res }
    | .aborted => s
    | .failure => { s with errors := s.errors + 1 }
  { s1 with loading := false, controllerRef := none, highlightedIndex := -1 }

/-- `controllerRef.current?.abort()`: if the referenced invocation is
still pending, its promise is rejected (it leaves `inflight`) and its
catch/finally continuation is queued as a microtask. -/
def abortRef (s : WidgetState) : WidgetState :=
  match s.controllerRef with
  | none => s
  | some cid =>
    if s.inflight.any (fun f => f.1 == cid) then
      { s with inflight := s.inflight.filter (fun f => f.1 != cid),
               microtask := true }
    else s

/-- Drain the microtask queue: run the queued aborted-invocation
continuation, if any. -/
def drain (s : WidgetState) : WidgetState :=
  if s.microtask then settleFetch .aborted { s with microtask := false } else s

/-- The debounce/fetch effect body (lines 69-109), run after a render
in which `query` (or `minQueryLength`) changed: clear the pending
debounce timer; if the trimmed query is shorter than `minQueryLength`
clear the results and stop; otherwise set `loading` and start a fresh
debounce timer carrying the trimmed query. -/
def runEffect (c : Config) (s : WidgetState) : WidgetState :=
  if (jsTrim s.query).length < c.minQueryLength then
    { s with debounce := none, results := [], loading := false }
  else
    { s with loading := true, debounce := some (jsTrim s.query) }

/-- Install a fresh `AbortController` and start `searchCities`
(lines 93-97): the new controller id goes into `controllerRef` and a
pending invocation is appended to `inflight`. -/
def startFetch (q : String) (s : WidgetState) : WidgetState :=
  { s with controllerRef := some s.nextId,
           inflight := s.inflight ++ [(s.nextId, q)],
           nextId := s.nextId + 1 }

/-- The debounce timer callback (lines 84-109): on a cache hit report
the cached results; on a miss abort any previous in-flight request,
install a fresh `AbortController` and start `searchCities`; the
aborted invocation's continuation then runs from the microtask queue. -/
def fireDebounce (s : WidgetState) : WidgetState :=
  match s.debounce with
  | none => s
  | some q =>
    match cacheGet s.cache q with
    | some rs =>
      { s with debounce := none, results := rs, loading := false,
               highlightedIndex := -1 }
    | none =>
      drain (startFetch q (abortRef { s with debounce := none }))

/-- `onSelect?.(value)`: record the host callback invocation. -/
def pushSelected (value : String) (s : WidgetState) : WidgetState :=
  { s with selected := s.selected ++ [value] }

/-- The synchronous part of `select` plus the microtask drain: set the
text, close the panel, reset the highlight, abort a live request,
invoke the host callback, then run the queued abort continuation. -/
def commitText (value : String) (s : WidgetState) : WidgetState :=
  drain (pushSelected value
    (abortRef { s with query := value, isOpen := false,
                       highlightedIndex := -1 }))

/-- The `select` handler (lines 144-150): set the input text, close
the panel, reset the highlight, abort any live request, invoke
`onSelect`; the React state update to `query` then re-runs the
debounce effect whenever the committed value differs from the
previous text. -/
def select (c : Config) (value : String) (s : WidgetState) : WidgetState :=
  if value != s.query then runEffect c (commitText value s)
  else commitText value s

/-- The input `onChange` handler (lines 182-185): set the query text
and open the panel; the effect re-runs since the DOM value changed. -/
def inputEvent (c : Config) (raw : String) (s : WidgetState) : WidgetState :=
  if raw != s.query then runEffect c { s with query := raw, isOpen := true }
  else { s with query := raw, isOpen := true }

/-- Keys handled by `onKeyDown`. -/
inductive Key where
  | arrowDown
  | arrowUp
  | enter
  | escape
  | other
deriving DecidableEq

/-- The `onKeyDown` handler (lines 120-142).  In the `Enter` branch
the source reads `results[highlightedIndex]`; when that element does
not exist (only possible with an empty result list and a stale
non-negative highlight) the source would commit the JavaScript value
`undefined`; the model leaves the state unchanged on that degenerate
branch, which no claim depends on. -/
def onKeyDown (c : Config) (k : Key) (s : WidgetState) : WidgetState :=
  match k with
  | .arrowDown =>
    if s.results.length = 0 then { s with isOpen := true }
    else
      { s with isOpen := true,
               highlightedIndex :=
                 if s.highlightedIndex < (s.results.length : Int) - 1 then
                   s.highlightedIndex + 1
                 else 0 }
  | .arrowUp =>
    if s.results.length = 0 then { s with isOpen := true }
    else
      { s with isOpen := true,
               highlightedIndex :=
                 if s.highlightedIndex ≤ 0 then (s.results.length : Int) - 1
                 else s.highlightedIndex - 1 }
  | .enter =>
    if s.isOpen ∧ 0 ≤ s.highlightedIndex then
      match s.results[s.highlightedIndex.toNat]? with
      | some v => select c v s
      | none => s
    else s
  | .escape => { s with isOpen := false, highlightedIndex := -1 }
  | .other => s

/-- Resolution of the oldest in-flight `searchCities` call (the fake
API has a fixed latency, so pending calls resolve in issue order). -/
def resolveFetch (s : WidgetState) : WidgetState :=
  match s.inflight with
  | [] => s
  | (_, q) :: rest =>
    settleFetch (.success q (searchCitiesResult q)) { s with inflight := rest }

/-- A non-abort rejection of the oldest in-flight suggestion-source
call; this exercises the component's generic catch branch. -/
def failFetch (s : WidgetState) : WidgetState :=
  match s.inflight with
  | [] => s
  | _ :: rest => settleFetch .failure { s with inflight := rest }

/-- Pointer hover over a rendered option (`onMouseEnter`); option
nodes exist only while the panel is open, not loading, and the index
is in range. -/
def itemHover (idx : Nat) (s : WidgetState) : WidgetState :=
  if s.isOpen ∧ s.loading = false ∧ idx < s.results.length then
    { s with highlightedIndex := (idx : Int) }
  else s

/-- Pointer press on a rendered option (`onMouseDown`): commit it. -/
def itemPress (c : Config) (idx : Nat) (s : WidgetState) : WidgetState :=
  if s.isOpen ∧ s.loading = false then
    match s.results[idx]? with
    | some v => select c v s
    | none => s
  else s

/-- The document-level `mousedown` listener (lines 56-66): a press
outside the widget root closes the panel and resets the highlight. -/
def outsideClick (s : WidgetState) : WidgetState :=
  { s with isOpen := false, highlightedIndex := -1 }

/-- One observable event of the widget. -/
inductive Event where
  | input (raw : String)
  | fire
  | resolve
  | fetchFail
  | key (k : Key)
  | hover (idx : Nat)
  | press (idx : Nat)
  | outside
deriving DecidableEq

/-- Dispatch one event. -/
def step (c : Config) (s : WidgetState) : Event → WidgetState
  | .input raw => inputEvent c raw s
  | .fire => fireDebounce s
  | .resolve => resolveFetch s
  | .fetchFail => failFetch s
  | .key k => onKeyDown c k s
  | .hover idx => itemHover idx s
  | .press idx => itemPress c idx s
  | .outside => outsideClick s

/-- The `useState` initial values and empty refs. -/
def init0 : WidgetState :=
  { query := "", results := [], isOpen := false, loading := false,
    highlightedIndex := -1, cache := [], controllerRef := none,
    debounce := none, inflight := [], nextId := 0, microtask := false,
    errors := 0, selected := [] }

/-- Run a list of events on a freshly mounted widget (the effect also
runs once after the first render). -/
def run (c : Config) (es : List Event) : WidgetState :=
  es.foldl (step c) (runEffect c init0)

/-- The default configuration (`minQueryLength = 1`). -/
def cfg1 : Config := { minQueryLength := 1 }

/-! ### Highlight invariant and concrete runs used by the theorems -/

/-- The highlight invariant that actually holds of every reachable
state: the highlight is at least `-1`, and whenever the result list is
nonempty the highlight is below its length.  (When the result list is
empty a stale non-negative highlight can survive, see the short-query
branch of `runEffect`.) -/
def InvHl (s : WidgetState) : Prop :=
  -1 ≤ s.highlightedIndex ∧
    (s.highlightedIndex < (s.results.length : Int) ∨ s.results = [])

/-- Typing `a`, `ab`, `abc` with each debounce firing between
keystrokes, all before the fake API's latency elapses. -/
def c1trace : List Event :=
  [.input "a", .fire, .input "ab", .fire, .input "abc", .fire]

/-- Load results for `b`, highlight the first item, then erase the
input below `minQueryLength`. -/
def c2trace : List Event :=
  [.input "b", .fire, .resolve, .key .arrowDown, .input ""]

/-- Resolve and cache query `b`, then retype it: the widget state at
the moment the resubmission of the cached query is debouncing. -/
def c3state : WidgetState :=
  run cfg1 [.input "b", .fire, .resolve, .input "", .input "b"]

/-- Type `b`, let the debounce fire: one request is now in flight. -/
def fetchingState : WidgetState := run cfg1 [.input "b", .fire]

/-- Type `b` and erase it while the request for `b` is in flight. -/
def c4trace : List Event := [.input "b", .fire, .input ""]

/-- Results for `b` loaded and displayed. -/
def loadedState : WidgetState := run cfg1 [.input "b", .fire, .resolve]

/-- Results for `b` loaded, first item highlighted. -/
def downState : WidgetState :=
  run cfg1 [.input "b", .fire, .resolve, .key .arrowDown]

/-- Results for `bo` loaded, first item (`Boston`) highlighted. -/
def c5state : WidgetState :=
  run cfg1 [.input "bo", .fire, .resolve, .key .arrowDown]

/-- As `c5state`, then commit the highlighted item with `Enter`. -/
def c5trace : List Event :=
  [.input "bo", .fire, .resolve, .key .arrowDown, .key .enter]

/-- Load results for `b`, close the panel with `Escape`, then press
`ArrowDown` while the panel is closed. -/
def c6trace : List Event :=
  [.input "b", .fire, .resolve, .key .escape, .key .arrowDown]

/-! ### Field-preservation lemmas for the handlers -/

theorem settleFetch_hl (out : FetchOutcome) (s : WidgetState) :
    (settleFetch out s).highlightedIndex = -1 := by
  cases out <;> rfl

@[simp] theorem abortRef_query (s : WidgetState) :
    (abortRef s).query = s.query := by
  unfold abortRef; split <;> (try split) <;> rfl

@[simp] theorem abortRef_results (s : WidgetState) :
    (abortRef s).results = s.results := by
  unfold abortRef; split <;> (try split) <;> rfl

@[simp] theorem abortRef_isOpen (s : WidgetState) :
    (abortRef s).isOpen = s.isOpen := by
  unfold abortRef; split <;> (try split) <;> rfl

@[simp] theorem abortRef_loading (s : WidgetState) :
    (abortRef s).loading = s.loading := by
  unfold abortRef; split <;> (try split) <;> rfl

@[simp] theorem abortRef_hl (s : WidgetState) :
    (abortRef s).highlightedIndex = s.highlightedIndex := by
  unfold abortRef; split <;> (try split) <;> rfl

@[simp] theorem abortRef_cache (s : WidgetState) :
    (abortRef s).cache = s.cache := by
  unfold abortRef; split <;> (try split) <;> rfl

@[simp] theorem abortRef_debounce (s : WidgetState) :
    (abortRef s).debounce = s.debounce := by
  unfold abortRef; split <;> (try split) <;> rfl

@[simp] theorem abortRef_nextId (s : WidgetState) :
    (abortRef s).nextId = s.nextId := by
  unfold abortRef; split <;> (try split) <;> rfl

@[simp] theorem abortRef_errors (s : WidgetState) :
    (abortRef s).errors = s.errors := by
  unfold abortRef; split <;> (try split) <;> rfl

@[simp] theorem abortRef_selected (s : WidgetState) :
    (abortRef s).selected = s.selected := by
  unfold abortRef; split <;> (try split) <;> rfl

theorem abortRef_inflight_le (s : WidgetState) :
    (abortRef s).inflight.length ≤ s.inflight.length := by
  unfold abortRef; split
  · exact Nat.le_refl _
  · split
    · exact List.length_filter_le _ _
    · exact Nat.le_refl _

@[simp] theorem drain_query (s : WidgetState) : (drain s).query = s.query := by
  unfold drain; split <;> rfl

@[simp] theorem drain_results (s : WidgetState) :
    (drain s).results = s.results := by
  unfold drain; split <;> rfl

@[simp] theorem drain_isOpen (s : WidgetState) :
    (drain s).isOpen = s.isOpen := by
  unfold drain; split <;> rfl

@[simp] theorem drain_cache (s : WidgetState) : (drain s).cache = s.cache := by
  unfold drain; split <;> rfl

@[simp] theorem drain_debounce (s : WidgetState) :
    (drain s).debounce = s.debounce := by
  unfold drain; split <;> rfl

@[simp] theorem drain_inflight (s : WidgetState) :
    (drain s).inflight = s.inflight := by
  unfold drain; split <;> rfl

@[simp] theorem drain_nextId (s : WidgetState) :
    (drain s).nextId = s.nextId := by
  unfold drain; split <;> rfl

@[simp] theorem drain_errors (s : WidgetState) :
    (drain s).errors = s.errors := by
  unfold drain; split <;> rfl

@[simp] theorem drain_selected (s : WidgetState) :
    (drain s).selected = s.selected := by
  unfold drain; split <;> rfl

theorem drain_hl_cases (s : WidgetState) :
    (drain s).highlightedIndex = -1 ∨
      (drain s).highlightedIndex = s.highlightedIndex := by
  unfold drain; split
  · exact Or.inl (settleFetch_hl _ _)
  · exact Or.inr rfl

@[simp] theorem runEffect_hl (c : Config) (s : WidgetState) :
    (runEffect c s).highlightedIndex = s.highlightedIndex := by
  unfold runEffect; split <;> rfl

@[simp] theorem runEffect_isOpen (c : Config) (s : WidgetState) :
    (runEffect c s).isOpen = s.isOpen := by
  unfold runEffect; split <;> rfl

@[simp] theorem runEffect_cache (c : Config) (s : WidgetState) :
    (runEffect c s).cache = s.cache := by
  unfold runEffect; split <;> rfl

@[simp] theorem runEffect_controllerRef (c : Config) (s : WidgetState) :
    (runEffect c s).controllerRef = s.controllerRef := by
  unfold runEffect; split <;> rfl

@[simp] theorem runEffect_inflight (c : Config) (s : WidgetState) :
    (runEffect c s).inflight = s.inflight := by
  unfold runEffect; split <;> rfl

@[simp] theorem runEffect_nextId (c : Config) (s : WidgetState) :
    (runEffect c s).nextId = s.nextId := by
  unfold runEffect; split <;> rfl

@[simp] theorem runEffect_errors (c : Config) (s : WidgetState) :
    (runEffect c s).errors = s.errors := by
  unfold runEffect; split <;> rfl

@[simp] theorem runEffect_selected (c : Config) (s : WidgetState) :
    (runEffect c s).selected = s.selected := by
  unfold runEffect; split <;> rfl

@[simp] theorem runEffect_query (c : Config) (s : WidgetState) :
    (runEffect c s).query = s.query := by
  unfold runEffect; split <;> rfl

theorem runEffect_results_cases (c : Config) (s : WidgetState) :
    (runEffect c s).results = [] ∨ (runEffect c s).results = s.results := by
  unfold runEffect; split
  · exact Or.inl rfl
  · exact Or.inr rfl

/-! ### Preservation of the highlight invariant -/

theorem InvHl_of_hl_neg_one (s : WidgetState)
    (h : s.highlightedIndex = -1) : InvHl s := by
  unfold InvHl
  rw [h]
  exact ⟨by omega, Or.inl (by omega)⟩

theorem settleFetch_inv (out : FetchOutcome) (s : WidgetState) :
    InvHl (settleFetch out s) :=
  InvHl_of_hl_neg_one _ (settleFetch_hl out s)

theorem drain_inv (s : WidgetState) (h : InvHl s) : InvHl (drain s) := by
  unfold drain; split
  · exact settleFetch_inv _ _
  · exact h

theorem abortRef_inv (s : WidgetState) (h : InvHl s) : InvHl (abortRef s) := by
  unfold InvHl
  rw [abortRef_hl, abortRef_results]
  exact h

theorem runEffect_inv (c : Config) (s : WidgetState) (h : InvHl s) :
    InvHl (runEffect c s) := by
  unfold runEffect; split
  · exact ⟨h.1, Or.inr rfl⟩
  · exact h

theorem commitText_inv (v : String) (s : WidgetState) :
    InvHl (commitText v s) := by
  unfold commitText
  exact drain_inv _ (abortRef_inv _ (InvHl_of_hl_neg_one _ rfl))

theorem select_inv (c : Config) (v : String) (s : WidgetState) :
    InvHl (select c v s) := by
  unfold select; split
  · exact runEffect_inv _ _ (commitText_inv _ _)
  · exact commitText_inv _ _

theorem inputEvent_inv (c : Config) (raw : String) (s : WidgetState)
    (h : InvHl s) : InvHl (inputEvent c raw s) := by
  unfold inputEvent; split
  · exact runEffect_inv _ _ h
  · exact h

theorem fireDebounce_inv (s : WidgetState) (h : InvHl s) :
    InvHl (fireDebounce s) := by
  unfold fireDebounce; split
  · exact h
  · split
    · exact InvHl_of_hl_neg_one _ rfl
    · exact drain_inv _ (abortRef_inv _ h)

theorem onKeyDown_inv (c : Config) (k : Key) (s : WidgetState)
    (h : InvHl s) : InvHl (onKeyDown c k s) := by
  cases k
  case arrowDown =>
    simp only [onKeyDown]
    split
    · exact h
    · rename_i hlen
      have hne : s.results ≠ [] := by
        intro he; rw [he] at hlen; exact hlen rfl
      have h1 := h.1
      have h2 : s.highlightedIndex < (s.results.length : Int) :=
        h.2.resolve_right hne
      have hpos : 0 < s.results.length := List.length_pos.mpr hne
      unfold InvHl
      refine ⟨?_, Or.inl ?_⟩ <;> dsimp only <;> split <;> omega
  case arrowUp =>
    simp only [onKeyDown]
    split
    · exact h
    · rename_i hlen
      have hne : s.results ≠ [] := by
        intro he; rw [he] at hlen; exact hlen rfl
      have h1 := h.1
      have h2 : s.highlightedIndex < (s.results.length : Int) :=
        h.2.resolve_right hne
      have hpos : 0 < s.results.length := List.length_pos.mpr hne
      unfold InvHl
      refine ⟨?_, Or.inl ?_⟩ <;> dsimp only <;> split <;> omega
  case enter =>
    simp only [onKeyDown]
    split
    · split
      · exact select_inv _ _ _
      · exact h
    · exact h
  case escape => exact InvHl_of_hl_neg_one _ rfl
  case other => exact h

theorem resolveFetch_inv (s : WidgetState) (h : InvHl s) :
    InvHl (resolveFetch s) := by
  unfold resolveFetch; split
  · exact h
  · exact settleFetch_inv _ _

theorem failFetch_inv (s : WidgetState) (h : InvHl s) :
    InvHl (failFetch s) := by
  unfold failFetch; split
  · exact h
  · exact settleFetch_inv _ _

theorem itemHover_inv (idx : Nat) (s : WidgetState) (h : InvHl s) :
    InvHl (itemHover idx s) := by
  unfold itemHover; split
  · rename_i hc
    refine ⟨?_, Or.inl ?_⟩
    · show (-1 : Int) ≤ (idx : Int)
      omega
    · show ((idx : Nat) : Int) < (s.results.length : Int)
      exact_mod_cast hc.2.2
  · exact h

theorem itemPress_inv (c : Config) (idx : Nat) (s : WidgetState)
    (h : InvHl s) : InvHl (itemPress c idx s) := by
  unfold itemPress; split
  · split
    · exact select_inv _ _ _
    · exact h
  · exact h

theorem step_inv (c : Config) (s : WidgetState) (e : Event) (h : InvHl s) :
    InvHl (step c s e) := by
  cases e
  case input raw => exact inputEvent_inv c raw s h
  case fire => exact fireDebounce_inv s h
  case resolve => exact resolveFetch_inv s h
  case fetchFail => exact failFetch_inv s h
  case key k => exact onKeyDown_inv c k s h
  case hover idx => exact itemHover_inv idx s h
  case press idx => exact itemPress_inv c idx s h
  case outside => exact InvHl_of_hl_neg_one _ rfl

theorem foldl_inv (c : Config) :
    ∀ (es : List Event) (s : WidgetState), InvHl s →
      InvHl (es.foldl (step c) s)
  | [], _, h => h
  | e :: es, s, h => foldl_inv c es (step c s e) (step_inv c s e h)

theorem run_inv (c : Config) (es : List Event) : InvHl (run c es) :=
  foldl_inv c es _ (runEffect_inv c init0 (InvHl_of_hl_neg_one _ rfl))

/-! ### The error sink is only touched by non-cancellation failures -/

theorem commitText_errors (v : String) (s : WidgetState) :
    (commitText v s).errors = s.errors := by
  unfold commitText
  rw [drain_errors]
  exact abortRef_errors _

theorem select_errors (c : Config) (v : String) (s : WidgetState) :
    (select c v s).errors = s.errors := by
  unfold select; split
  · rw [runEffect_errors]; exact commitText_errors _ _
  · exact commitText_errors _ _

theorem inputEvent_errors (c : Config) (raw : String) (s : WidgetState) :
    (inputEvent c raw s).errors = s.errors := by
  unfold inputEvent; split
  · rw [runEffect_errors]
  · rfl

theorem fireDebounce_errors (s : WidgetState) :
    (fireDebounce s).errors = s.errors := by
  unfold fireDebounce; split
  · rfl
  · split
    · rfl
    · rw [drain_errors]; exact abortRef_errors _

theorem onKeyDown_errors (c : Config) (k : Key) (s : WidgetState) :
    (onKeyDown c k s).errors = s.errors := by
  cases k
  case arrowDown => simp only [onKeyDown]; split <;> rfl
  case arrowUp => simp only [onKeyDown]; split <;> rfl
  case enter =>
    simp only [onKeyDown]; split
    · split
      · exact select_errors _ _ _
      · rfl
    · rfl
  case escape => rfl
  case other => rfl

theorem resolveFetch_errors (s : WidgetState) :
    (resolveFetch s).errors = s.errors := by
  unfold resolveFetch; split <;> rfl

theorem itemHover_errors (idx : Nat) (s : WidgetState) :
    (itemHover idx s).errors = s.errors := by
  unfold itemHover; split <;> rfl

theorem itemPress_errors (c : Config) (idx : Nat) (s : WidgetState) :
    (itemPress c idx s).errors = s.errors := by
  unfold itemPress; split
  · split
    · exact select_errors _ _ _
    · rfl
  · rfl

/-! ### Committing always ends with highlight -1 -/

theorem commitText_hl (v : String) (s : WidgetState) :
    (commitText v s).highlightedIndex = -1 := by
  unfold commitText drain
  split
  · exact settleFetch_hl _ _
  · exact abortRef_hl
      { s with query := v, isOpen := false, highlightedIndex := -1 }

theorem select_hl (c : Config) (v : String) (s : WidgetState) :
    (select c v s).highlightedIndex = -1 := by
  unfold select; split
  · rw [runEffect_hl]; exact commitText_hl _ _
  · exact commitText_hl _ _

/-! ### The claims -/

/-- Claim C1 (code bug).  The claim says at most one fetch request is
ever live and that a newly issued fetch always cancels a still-pending
prior one.  The code violates this: after a request is aborted, its
`finally` block sets `controllerRef.current = null` even though the
replacement request is still pending, so the next debounce fire finds
no controller to abort and issues a second concurrent fetch.  After
`c1trace` the requests for `ab` and for `abc` are both live, and the
fetch for `abc` was issued without cancelling the pending `ab` one. -/
theorem c1_two_requests_live :
    (run cfg1 c1trace).inflight = [(1, "ab"), (2, "abc")] ∧
    (run cfg1 c1trace).controllerRef = some 2 := by
  decide

/-- Claim C2 counterexample.  After loading results for `b`,
highlighting the first item and erasing the input below
`minQueryLength`, the result list is empty while the highlight is
still `0`: the highlight is neither `-1` nor inside `[0, len-1]`,
because the short-query branch clears the results without resetting
the highlight. -/
theorem c2_highlight_cex :
    (run cfg1 c2trace).results = [] ∧
    (run cfg1 c2trace).highlightedIndex = 0 ∧
    ¬((run cfg1 c2trace).highlightedIndex = -1 ∨
        (0 ≤ (run cfg1 c2trace).highlightedIndex ∧
          (run cfg1 c2trace).highlightedIndex <
            ((run cfg1 c2trace).results.length : Int))) := by
  decide

/-- Claim C2 (amended).  In every reachable state the highlight is at
least `-1` and is below the result-list length whenever the result
list is nonempty (an empty result list may retain a stale non-negative
highlight); and every step either resets the highlight to `-1`, or
clears the result list (the short-query branch), or leaves the result
list unchanged. -/
theorem c2_highlight_amended :
    (∀ (c : Config) (es : List Event),
        -1 ≤ (run c es).highlightedIndex ∧
          ((run c es).highlightedIndex < ((run c es).results.length : Int) ∨
            (run c es).results = []))
  ∧ (∀ (c : Config) (s : WidgetState) (e : Event),
        (step c s e).highlightedIndex = -1 ∨ (step c s e).results = [] ∨
          (step c s e).results = s.results) := by
  refine ⟨fun c es => run_inv c es, fun c s e => ?_⟩
  cases e
  case input raw =>
    simp only [step]
    unfold inputEvent
    split
    · rcases runEffect_results_cases c { s with query := raw, isOpen := true }
        with h | h
      · exact Or.inr (Or.inl h)
      · exact Or.inr (Or.inr h)
    · exact Or.inr (Or.inr rfl)
  case fire =>
    simp only [step]
    unfold fireDebounce
    split
    · exact Or.inr (Or.inr rfl)
    · split
      · exact Or.inl rfl
      · refine Or.inr (Or.inr ?_)
        rw [drain_results]
        exact abortRef_results { s with debounce := none }
  case resolve =>
    simp only [step]
    unfold resolveFetch
    split
    · exact Or.inr (Or.inr rfl)
    · exact Or.inl (settleFetch_hl _ _)
  case fetchFail =>
    simp only [step]
    unfold failFetch
    split
    · exact Or.inr (Or.inr rfl)
    · exact Or.inr (Or.inr rfl)
  case key k =>
    simp only [step]
    cases k
    case arrowDown =>
      simp only [onKeyDown]
      split
      · exact Or.inr (Or.inr rfl)
      · exact Or.inr (Or.inr rfl)
    case arrowUp =>
      simp only [onKeyDown]
      split
      · exact Or.inr (Or.inr rfl)
      · exact Or.inr (Or.inr rfl)
    case enter =>
      simp only [onKeyDown]
      split
      · split
        · exact Or.inl (select_hl _ _ _)
        · exact Or.inr (Or.inr rfl)
      · exact Or.inr (Or.inr rfl)
    case escape => exact Or.inr (Or.inr rfl)
    case other => exact Or.inr (Or.inr rfl)
  case hover idx =>
    simp only [step]
    unfold itemHover
    split
    · exact Or.inr (Or.inr rfl)
    · exact Or.inr (Or.inr rfl)
  case press idx =>
    simp only [step]
    unfold itemPress
    split
    · split
      · exact Or.inl (select_hl _ _ _)
      · exact Or.inr (Or.inr rfl)
    · exact Or.inr (Or.inr rfl)
  case outside => exact Or.inr (Or.inr rfl)

/-- Claim C8 (confirmed).  A fetch that fails with the cancellation
signal is suppressed: the catch/finally continuation for an aborted
invocation changes neither the error sink, nor the displayed results,
nor the cache, nor the host-callback log; and no widget event other
than a non-cancellation fetch failure ever touches the error sink. -/
theorem c8_abort_suppressed :
    (∀ s : WidgetState,
        (settleFetch .aborted s).errors = s.errors ∧
        (settleFetch .aborted s).results = s.results ∧
        (settleFetch .aborted s).cache = s.cache ∧
        (settleFetch .aborted s).selected = s.selected)
  ∧ (∀ (c : Config) (s : WidgetState) (e : Event),
        (step c s e).errors = s.errors ∨ e = Event.fetchFail) := by
  refine ⟨fun s => ⟨rfl, rfl, rfl, rfl⟩, fun c s e => ?_⟩
  cases e
  case input raw => exact Or.inl (inputEvent_errors c raw s)
  case fire => exact Or.inl (fireDebounce_errors s)
  case resolve => exact Or.inl (resolveFetch_errors s)
  case fetchFail => exact Or.inr rfl
  case key k => exact Or.inl (onKeyDown_errors c k s)
  case hover idx => exact Or.inl (itemHover_errors idx s)
  case press idx => exact Or.inl (itemPress_errors c idx s)
  case outside => exact Or.inl rfl

/-- Claim C9 (confirmed).  A fetch that fails with a non-cancellation
error reports it to the observability sink (`console.error`), clears
the loading state, and leaves the displayed results, the cache, and
the host-callback log unchanged: the query is not cached and the
display is not blanked. -/
theorem c9_failure_reported (c : Config) (s : WidgetState)
    (h : s.inflight ≠ []) :
    (step c s .fetchFail).errors = s.errors + 1 ∧
    (step c s .fetchFail).results = s.results ∧
    (step c s .fetchFail).cache = s.cache ∧
    (step c s .fetchFail).loading = false ∧
    (step c s .fetchFail).selected = s.selected := by
  simp only [step]
  unfold failFetch
  split
  · rename_i hnil
    exact absurd hnil h
  · exact ⟨rfl, rfl, rfl, rfl, rfl⟩

/-- Witness for C9 at the state with the request for `b` in flight. -/
theorem c9_failure_witness :
    (step cfg1 fetchingState .fetchFail).errors = fetchingState.errors + 1 ∧
    (step cfg1 fetchingState .fetchFail).results = fetchingState.results ∧
    (step cfg1 fetchingState .fetchFail).cache = fetchingState.cache ∧
    (step cfg1 fetchingState .fetchFail).loading = false ∧
    (step cfg1 fetchingState .fetchFail).selected = fetchingState.selected :=
  c9_failure_reported cfg1 fetchingState (by decide)

theorem subAt_nil_pat (s : List Char) : subAt [] s = true := by
  cases s <;> simp [subAt, prefAt]

/-- Every string contains the empty string (JavaScript
`s.includes("")` is always `true`). -/
theorem strIncludes_empty (s : String) : strIncludes s "" = true := by
  unfold strIncludes
  rw [show ("" : String).data = [] from rfl]
  exact subAt_nil_pat s.data

/-- Claim C10 (confirmed).  `searchCities q`, when not cancelled,
resolves to exactly the entries of the fixed 8-city list whose
lowercase form contains the lowercase form of `q` as a substring, in
list order (the filter result is a sublist of the data), and the empty
query returns all 8 cities.  The claim's "lowercase form" is the
JavaScript `toLowerCase` host builtin, so the characterization is
proved for every lowercase mapping `low` (the builtin included): the
result is exactly the membership-characterized filter, is always a
sublist of the data, and the empty query returns all 8 cities for any
mapping fixing the empty string (as `toLowerCase` does).  The last two
conjuncts evaluate the ASCII instantiation used by the concrete
traces. -/
theorem c10_search_cities :
    (∀ (low : String → String) (q city : String),
        city ∈ searchCitiesResultWith low q ↔
          city ∈ citiesData ∧ strIncludes (low city) (low q) = true)
  ∧ (∀ (low : String → String) (q : String),
        (searchCitiesResultWith low q).Sublist citiesData)
  ∧ (∀ low : String → String, low "" = "" →
        searchCitiesResultWith low "" = citiesData)
  ∧ searchCitiesResult "" = citiesData
  ∧ citiesData = ["Boston", "Bogotá", "Buenos Aires", "Bangalore",
      "Berlin", "Barcelona", "Beijing", "Brisbane"] := by
  refine ⟨fun low q city => ?_, fun low q => List.filter_sublist _,
    fun low h => ?_, by decide, rfl⟩
  · simp [searchCitiesResultWith, List.mem_filter]
  · unfold searchCitiesResultWith
    rw [h]
    refine List.filter_eq_self.mpr fun city _ => ?_
    exact strIncludes_empty (low city)

/-- Witness for C10: the empty-query conjunct applied to the ASCII
lowering, which does fix the empty string. -/
theorem c10_search_cities_witness :
    searchCitiesResultWith lowerStr "" = citiesData :=
  c10_search_cities.2.2.1 lowerStr (by decide)

/-- Claim C3 counterexample.  The claim says a cached query submission
never reports a loading state.  In `c3state` the trimmed query `b` is
cached, the resubmission of `b` is debouncing — and `loading` is
`true`, because the effect sets `loading` on every long-enough
submission before the debounce-time cache check. -/
theorem c3_cached_loading_cex :
    cacheGet c3state.cache "b" = some citiesData ∧
    c3state.debounce = some "b" ∧
    c3state.loading = true := by
  decide

/-- Claim C3 (amended).  When the debounce fires for a cached trimmed
query, the cached result list is reported, loading is cleared, the
highlight resets, and no fetch is issued (no abort, no new controller,
no new in-flight request); loading is however `true` during the
debounce window, as the counterexample shows. -/
theorem c3_cached_amended (s : WidgetState) (q : String)
    (rs : List String) (hdeb : s.debounce = some q)
    (hc : cacheGet s.cache q = some rs) :
    (fireDebounce s).results = rs ∧ (fireDebounce s).loading = false ∧
    (fireDebounce s).highlightedIndex = -1 ∧
    (fireDebounce s).inflight = s.inflight ∧
    (fireDebounce s).nextId = s.nextId ∧
    (fireDebounce s).controllerRef = s.controllerRef ∧
    (fireDebounce s).errors = s.errors := by
  unfold fireDebounce
  simp only [hdeb, hc]
  exact ⟨trivial, trivial, trivial, trivial, trivial, trivial, trivial⟩

/-- Witness for C3 at the concrete resubmission state. -/
theorem c3_cached_witness :
    (fireDebounce c3state).results = citiesData ∧
    (fireDebounce c3state).loading = false ∧
    (fireDebounce c3state).highlightedIndex = -1 ∧
    (fireDebounce c3state).inflight = c3state.inflight ∧
    (fireDebounce c3state).nextId = c3state.nextId ∧
    (fireDebounce c3state).controllerRef = c3state.controllerRef ∧
    (fireDebounce c3state).errors = c3state.errors :=
  c3_cached_amended c3state "b" citiesData (by decide) (by decide)

/-- Claim C4 counterexample.  The claim says a short submission
cancels any live in-flight request.  After typing `b`, letting the
debounce fire, and erasing the input, the request for `b` is still in
flight — and if it later resolves it overwrites the cleared display
with the full city list although the input is empty. -/
theorem c4_short_query_cex :
    (run cfg1 c4trace).query = "" ∧
    (run cfg1 c4trace).results = [] ∧
    (run cfg1 c4trace).loading = false ∧
    (run cfg1 c4trace).inflight = [(0, "b")] ∧
    (run cfg1 (c4trace ++ [.resolve])).results = citiesData := by
  decide

/-- Claim C4 (amended).  Submitting a raw input whose trimmed length
is below `minQueryLength` immediately clears the result list, cancels
the pending debounce timer and reports the non-loading state — but it
does not cancel a live in-flight request: the in-flight list and the
controller reference are left untouched. -/
theorem c4_short_query_amended (c : Config) (s : WidgetState)
    (raw : String) (hne : (raw != s.query) = true)
    (hshort : (jsTrim raw).length < c.minQueryLength) :
    (step c s (.input raw)).results = [] ∧
    (step c s (.input raw)).loading = false ∧
    (step c s (.input raw)).debounce = none ∧
    (step c s (.input raw)).inflight = s.inflight ∧
    (step c s (.input raw)).controllerRef = s.controllerRef ∧
    (step c s (.input raw)).errors = s.errors := by
  simp only [step]
  unfold inputEvent
  rw [if_pos hne]
  unfold runEffect
  dsimp only
  rw [if_pos hshort]
  exact ⟨rfl, rfl, rfl, rfl, rfl, rfl⟩

/-- Witness for C4: erasing the input while the request for `b` is in
flight. -/
theorem c4_short_query_witness :
    (step cfg1 fetchingState (.input "")).results = [] ∧
    (step cfg1 fetchingState (.input "")).loading = false ∧
    (step cfg1 fetchingState (.input "")).debounce = none ∧
    (step cfg1 fetchingState (.input "")).inflight =
      fetchingState.inflight ∧
    (step cfg1 fetchingState (.input "")).controllerRef =
      fetchingState.controllerRef ∧
    (step cfg1 fetchingState (.input "")).errors = fetchingState.errors :=
  c4_short_query_amended cfg1 fetchingState "" (by decide) (by decide)

/-- Claim C5 counterexample.  The claim says a commit never re-triggers
the query-submission path.  Committing `Boston` with `Enter` leaves
the widget with `loading = true` and a fresh debounce timer for
`Boston`, and the subsequent debounce fire issues a fetch for
`Boston` — all caused by the commit's own `setQuery`. -/
theorem c5_commit_retrigger_cex :
    (run cfg1 c5trace).selected = ["Boston"] ∧
    (run cfg1 c5trace).isOpen = false ∧
    (run cfg1 c5trace).loading = true ∧
    (run cfg1 c5trace).debounce = some "Boston" ∧
    (run cfg1 (c5trace ++ [.fire])).inflight = [(1, "Boston")] := by
  decide

/-- Claim C5 (amended).  Committing a selection closes the panel,
resets the highlight, invokes the host callback, and issues no fetch
synchronously (the in-flight list cannot grow) — but the programmatic
text change re-runs the query effect: whenever the committed value
differs from the current text and its trimmed length is at least
`minQueryLength`, the commit leaves a fresh debounce timer armed and
the loading state set. -/
theorem c5_commit_amended (c : Config) (s : WidgetState) (v : String)
    (hne : (v != s.query) = true)
    (hlen : c.minQueryLength ≤ (jsTrim v).length) :
    (select c v s).isOpen = false ∧
    (select c v s).highlightedIndex = -1 ∧
    (select c v s).selected = s.selected ++ [v] ∧
    (select c v s).loading = true ∧
    (select c v s).debounce = some (jsTrim v) ∧
    (select c v s).inflight.length ≤ s.inflight.length := by
  have hnot : ¬((jsTrim v).length < c.minQueryLength) := Nat.not_lt.mpr hlen
  have hq : (commitText v s).query = v := by
    simp [commitText, pushSelected]
  unfold select
  rw [if_pos hne]
  refine ⟨?_, ?_, ?_, ?_, ?_, ?_⟩
  · rw [runEffect_isOpen]
    simp [commitText, pushSelected]
  · rw [runEffect_hl]
    exact commitText_hl _ _
  · rw [runEffect_selected]
    simp [commitText, pushSelected]
  · unfold runEffect
    rw [hq, if_neg hnot]
  · unfold runEffect
    rw [hq, if_neg hnot]
  · rw [runEffect_inflight]
    simp only [commitText, pushSelected, drain_inflight]
    exact abortRef_inflight_le _

/-- Witness for C5: committing `Boston` from the loaded `bo` state. -/
theorem c5_commit_witness :
    (select cfg1 "Boston" c5state).isOpen = false ∧
    (select cfg1 "Boston" c5state).highlightedIndex = -1 ∧
    (select cfg1 "Boston" c5state).selected = c5state.selected ++ ["Boston"] ∧
    (select cfg1 "Boston" c5state).loading = true ∧
    (select cfg1 "Boston" c5state).debounce = some (jsTrim "Boston") ∧
    (select cfg1 "Boston" c5state).inflight.length ≤
      c5state.inflight.length :=
  c5_commit_amended cfg1 c5state "Boston" (by decide) (by decide)

/-- Claim C6 counterexample.  The claim says `ArrowDown` while the
panel is closed opens it without moving the highlight.  With the
results for `b` loaded and the panel closed by `Escape`, `ArrowDown`
opens the panel and also advances the highlight from `-1` to `0`. -/
theorem c6_arrow_down_cex :
    (run cfg1 [.input "b", .fire, .resolve, .key .escape]).isOpen = false ∧
    (run cfg1 [.input "b", .fire, .resolve, .key .escape]).results ≠ [] ∧
    (run cfg1 [.input "b", .fire, .resolve,
        .key .escape]).highlightedIndex = -1 ∧
    (run cfg1 c6trace).isOpen = true ∧
    (run cfg1 c6trace).highlightedIndex = 0 := by
  decide

/-- Claim C6 (amended).  With a nonempty result list and an in-range
highlight, `ArrowDown` leaves the panel open (opening it first when it
was closed) and advances the highlight to `(highlight + 1) mod N`,
wrapping from the last item to the first — whether or not the panel
was open; with an empty result list it opens the panel without moving
the highlight. -/
theorem c6_arrow_down_amended :
    (∀ (c : Config) (s : WidgetState),
        s.results ≠ [] → -1 ≤ s.highlightedIndex →
        s.highlightedIndex < (s.results.length : Int) →
        (onKeyDown c .arrowDown s).isOpen = true ∧
        (onKeyDown c .arrowDown s).results = s.results ∧
        (onKeyDown c .arrowDown s).highlightedIndex =
          (s.highlightedIndex + 1) % (s.results.length : Int))
  ∧ (∀ (c : Config) (s : WidgetState),
        s.results = [] →
        (onKeyDown c .arrowDown s).isOpen = true ∧
        (onKeyDown c .arrowDown s).highlightedIndex =
          s.highlightedIndex) := by
  constructor
  · intro c s hne hlo hhi
    have hpos : 0 < s.results.length := List.length_pos.mpr hne
    have hzr : ¬(s.results.length = 0) := by omega
    simp only [onKeyDown]
    rw [if_neg hzr]
    refine ⟨rfl, rfl, ?_⟩
    dsimp only
    split
    · rename_i hlt
      rw [Int.emod_eq_of_lt (by omega) (by omega)]
    · rename_i hge
      have hx : s.highlightedIndex + 1 = (s.results.length : Int) := by
        omega
      rw [hx, Int.emod_self]
  · intro c s he
    have hzr : s.results.length = 0 := by rw [he]; rfl
    simp only [onKeyDown]
    rw [if_pos hzr]
    exact ⟨rfl, rfl⟩

/-- Witness for C6: the nonempty case at the loaded `b` state and the
empty case at the initial state. -/
theorem c6_arrow_down_witness :
    ((onKeyDown cfg1 .arrowDown loadedState).isOpen = true ∧
      (onKeyDown cfg1 .arrowDown loadedState).results =
        loadedState.results ∧
      (onKeyDown cfg1 .arrowDown loadedState).highlightedIndex =
        (loadedState.highlightedIndex + 1) %
          (loadedState.results.length : Int))
  ∧ ((onKeyDown cfg1 .arrowDown init0).isOpen = true ∧
      (onKeyDown cfg1 .arrowDown init0).highlightedIndex =
        init0.highlightedIndex) :=
  ⟨c6_arrow_down_amended.1 cfg1 loadedState (by decide) (by decide)
      (by decide),
    c6_arrow_down_amended.2 cfg1 init0 rfl⟩

/-- `-1 mod n = n - 1` for positive `n` (Euclidean remainder). -/
theorem negOne_emod (n : Int) (hn : 0 < n) : (-1 : Int) % n = n - 1 := by
  have h : (-1 : Int) = (n - 1) + n * (-1) := by ring
  rw [h, Int.add_mul_emod_self_left,
    Int.emod_eq_of_lt (by omega) (by omega)]

/-- Claim C7 (confirmed).  With the panel receiving keys and a
nonempty result list, `ArrowUp` moves an actual highlight (`h ≥ 0`) to
`(h - 1) mod N`, wrapping from the first item to the last, and from
the initial highlight `-1` it also wraps to the last item. -/
theorem c7_arrow_up (c : Config) (s : WidgetState)
    (hne : s.results ≠ []) (hlo : -1 ≤ s.highlightedIndex)
    (hhi : s.highlightedIndex < (s.results.length : Int)) :
    (onKeyDown c .arrowUp s).isOpen = true ∧
    (onKeyDown c .arrowUp s).results = s.results ∧
    (0 ≤ s.highlightedIndex →
      (onKeyDown c .arrowUp s).highlightedIndex =
        (s.highlightedIndex - 1) % (s.results.length : Int)) ∧
    (s.highlightedIndex = -1 →
      (onKeyDown c .arrowUp s).highlightedIndex =
        (s.results.length : Int) - 1) := by
  have hpos : 0 < s.results.length := List.length_pos.mpr hne
  have hzr : ¬(s.results.length = 0) := by omega
  simp only [onKeyDown]
  rw [if_neg hzr]
  refine ⟨rfl, rfl, ?_, ?_⟩
  · intro h0
    dsimp only
    split
    · rename_i hle
      have hx : s.highlightedIndex = 0 := by omega
      rw [hx, zero_sub, negOne_emod _ (by exact_mod_cast hpos)]
    · rename_i hgt
      rw [Int.emod_eq_of_lt (by omega) (by omega)]
  · intro hm1
    dsimp only
    rw [if_pos (by omega : s.highlightedIndex ≤ 0)]

/-- Witness for C7 at the loaded `b` state with the first item
highlighted. -/
theorem c7_arrow_up_witness :
    (onKeyDown cfg1 .arrowUp downState).isOpen = true ∧
    (onKeyDown cfg1 .arrowUp downState).results = downState.results ∧
    (0 ≤ downState.highlightedIndex →
      (onKeyDown cfg1 .arrowUp downState).highlightedIndex =
        (downState.highlightedIndex - 1) %
          (downState.results.length : Int)) ∧
    (downState.highlightedIndex = -1 →
      (onKeyDown cfg1 .arrowUp downState).highlightedIndex =
        (downState.results.length : Int) - 1) :=
  c7_arrow_up cfg1 downState (by decide) (by decide) (by decide)

end TechAid
